import Mathlib

/-!
Verification of the natural-language specification of the
`trust_man_stl_monitor` repository (files `monitor_stl_2.py` and
`properties.py`) against a shallow embedding of its code.

Conventions of the embedding:
* Python floats are modelled as rationals (`ℚ`); all float operations used
  by the code are comparisons and identity, which agree with `ℚ` on every
  non-NaN value.
* Python dicts with a fixed key set are modelled as Lean structures; dicts
  used as ordered name/value tables are modelled as association lists
  (Python dicts iterate in insertion order).
* Fallible external calls (the rtamt oracle, `float()` parsing) are
  modelled by `Option`: `none` means the call raised.
-/

namespace TrustManSTL

/-! ## Data model: CSV rows and per-signal sample tables (monitor_stl_2.py) -/

/-- One per-signal sample table, modelling the `data` dict built by
`STLMonitor.load_data_from_csv`: each entry is a column name paired with its
ordered list of `(time, value)` samples. -/
abbrev SigData := List (String × List (ℚ × ℚ))

/-- One CSV data row, modelling a `csv.DictReader` row in which every header
maps to a cell string. A cell is `some q` when Python `float()` parses the
cell to `q`, and `none` when `float()` raises `ValueError` (non-numeric or
empty cell). Rows shorter than the header, whose missing fields become
Python `None` and raise an uncaught `TypeError` aborting the whole read,
are outside this model. -/
abbrev Row := List (String × Option ℚ)

/-- Cell access `float(row[header])`, see above: `some q` iff the cell
parses to `q`. -/
def getCell (row : Row) (h : String) : Option ℚ :=
  match row.lookup h with
  | some v => v
  | none => none

/-- `data[header].append((time, value))` (monitor_stl_2.py line 110): append
one sample to the named column of the table. -/
def appendAt (data : SigData) (h : String) (s : ℚ × ℚ) : SigData :=
  data.map (fun e => if e.1 = h then (e.1, e.2 ++ [s]) else e)

/-- The inner loop `for header in data: value = float(row[header]);
data[header].append((time, value))` (lines 108-110).  The appends happen
one header at a time inside the `try`, so a `ValueError` on a later header
leaves the appends already made for earlier headers in place. -/
def appendCells (t : ℚ) (row : Row) : List String → SigData → SigData
  | [], data => data
  | h :: rest, data =>
    match getCell row h with
    | some v => appendCells t row rest (appendAt data h (t, v))
    | none => data

/-- Processing of one CSV data row (lines 105-112): parse `time` first; on
failure the row contributes nothing, otherwise run the per-header append
loop (which may stop part way through on a bad cell). -/
def processRow (hdrs : List String) (data : SigData) (row : Row) : SigData :=
  match getCell row "time" with
  | some t => appendCells t row hdrs data
  | none => data

/-- `STLMonitor.load_data_from_csv` (lines 77-121).  The input is `none`
when the file is missing (`FileNotFoundError` path); otherwise it is the
header list together with the data rows.  Missing headers, a missing
`time` column, and a missing file all return the empty table. -/
def load_data_from_csv (file : Option (List String × List Row)) : SigData :=
  match file with
  | none => []
  | some (headers, rows) =>
    if headers.isEmpty then []
    else if "time" ∈ headers then
      let hdrs := headers.filter (fun h => h != "time")
      rows.foldl (processRow hdrs) (hdrs.map (fun h => (h, ([] : List (ℚ × ℚ)))))
    else []

/-! ## Threshold registry and the dynamic formula builder -/

/-- One threshold rule: the optional `min` / `max` safe-range bounds of a
signal (the per-signal dicts inside `stl_thresholds`, lines 55-62). -/
structure Rules where
  min : Option Int
  max : Option Int
deriving DecidableEq

/-- The `stl_thresholds` module dict (lines 55-62): ordered per-signal rules
plus the `window_time` entry.  The Python dict stores `window_time` as just
another key which `dyn_build_formula` skips by name and reads back with
`.get('window_time', 5)`; the structure separates the two roles, `none`
meaning the key is absent. -/
structure Registry where
  thresholds : List (String × Rules)
  window_time : Option Int
deriving DecidableEq

/-- The literal value of the module constant `stl_thresholds`. -/
def stl_thresholds : Registry :=
  { thresholds :=
      [("speed", { min := none, max := some 100 }),
       ("acceleration", { min := some (-20), max := some 20 }),
       ("x", { min := some 0, max := some 600 }),
       ("y", { min := some 0, max := some 500 }),
       ("angle", { min := some 0, max := some 20 })],
    window_time := some 5 }

/-- One iteration of the loop body of `dyn_build_formula` (lines 319-330):
skip the signal unless it occurs in the data; append the `min` predicates
when a `min` bound exists, then the `max` predicates when a `max` bound
exists.  The accumulator pairs the `violations` and `goal` lists. -/
def buildStep (data : List String) (acc : List String × List String)
    (e : String × Rules) : List String × List String :=
  if e.1 ∈ data then
    let acc1 :=
      match e.2.min with
      | some m => (acc.1 ++ [e.1 ++ " < " ++ toString m],
                   acc.2 ++ [e.1 ++ " >= " ++ toString m])
      | none => acc
    match e.2.max with
    | some m => (acc1.1 ++ [e.1 ++ " > " ++ toString m],
                 acc1.2 ++ [e.1 ++ " <= " ++ toString m])
    | none => acc1
  else acc

/-- `DenseSTLMonitor.dyn_build_formula` (lines 315-339), with the module
globals it reads (`stl_thresholds`) passed explicitly and the data dict
represented by its key list.  Joins the accumulated predicate lists with
`' or '` / `' and '` and formats the final formula string exactly as the
f-string at line 336 does. -/
def dyn_build_formula (reg : Registry) (data : List String) : String :=
  let vg := reg.thresholds.foldl (buildStep data) ([], [])
  let violation_formula := String.intercalate " or " vg.1
  let recovery_formula := String.intercalate " and " vg.2
  let window_time := reg.window_time.getD 5
  "out = always((" ++ violation_formula ++ ") implies eventually[0:" ++
    toString window_time ++ "](" ++ recovery_formula ++ "))"

/-- Modelled from the spec (section 4.2 algorithm): per-signal violation
predicates — `signal < min` when a `min` bound exists and `signal > max`
when a `max` bound exists, in that order, one predicate per present bound.
Used only to compare the code's builder against the specified shape. -/
def spec_viol_preds (e : String × Rules) : List String :=
  (match e.2.min with
   | some m => [e.1 ++ " < " ++ toString m]
   | none => []) ++
  (match e.2.max with
   | some m => [e.1 ++ " > " ++ toString m]
   | none => [])

/-- Modelled from the spec (section 4.2 algorithm): per-signal recovery
predicates — `signal >= min` / `signal <= max` for the present bounds. -/
def spec_rec_preds (e : String × Rules) : List String :=
  (match e.2.min with
   | some m => [e.1 ++ " >= " ++ toString m]
   | none => []) ++
  (match e.2.max with
   | some m => [e.1 ++ " <= " ++ toString m]
   | none => [])

/-- Modelled from the spec: the violation clause's predicate list — the
per-signal violation predicates of exactly the registry signals present in
the data, in registry order. -/
def spec_violation_list (reg : Registry) (data : List String) : List String :=
  ((reg.thresholds.filter (fun e => decide (e.1 ∈ data))).map spec_viol_preds).flatten

/-- Modelled from the spec: the recovery clause's predicate list. -/
def spec_recovery_list (reg : Registry) (data : List String) : List String :=
  ((reg.thresholds.filter (fun e => decide (e.1 ∈ data))).map spec_rec_preds).flatten

/-! ## Static property catalogue and the variable schema -/

/-- `Property.headings` from `properties.py`: the ordered column schema. -/
def Property_headings : List (String × String) :=
  [("time", "float"), ("device_id", "integer"), ("speed", "float"),
   ("acceleration", "float"), ("x", "float"), ("y", "float"), ("angle", "float")]

/-- The `STL_PROPERTY_FORMULAS["speed"]` formula string (lines 27-31), with
Python's adjacent-string-literal concatenation performed. -/
def speed_formula : String :=
  "out = always((  (speed > 100)) implies eventually[0:5](  speed <= 100))"

/-- The `STL_PROPERTY_FORMULAS["acc"]` formula string (line 35). -/
def acc_formula : String :=
  "out=always[0:5](acceleration >= -20 and acceleration <=20)"

/-- The `STL_PROPERTY_FORMULAS["xpos"]` formula string (lines 39-43). -/
def xpos_formula : String :=
  "out = always((  (x < 0 or x > 600)) implies eventually[0:5](  x >= 0 and x <= 600))"

/-- The `STL_PROPERTY_FORMULAS["all"]` formula string (lines 47-51). -/
def all_formula : String :=
  "out = always((  (speed > 100 or acceleration < -20 or acceleration > 20 or x < 0 or x > 600)) implies eventually[0:5](  speed <= 100 and acceleration >= -20 and acceleration <= 20 and x >= 0 and x <= 600))"

/-- The `STL_PROPERTY_FORMULAS` module dict (lines 24-53): ordered entries
`(name, id, formula)`. -/
def STL_PROPERTY_FORMULAS : List (String × Int × String) :=
  [("speed", 0, speed_formula), ("acc", 1, acc_formula),
   ("xpos", 2, xpos_formula), ("all", 3, all_formula)]

/-- The observable state of an rtamt specification object as
`DenseSTLMonitor.define_spec` leaves it: the declared variables (name,
type, io direction) and the installed formula string. -/
structure SpecState where
  vars : List (String × String × String)
  formula : String
deriving DecidableEq

/-- The variable declarations made by `define_spec` (lines 199-212): one
input variable per `Property.headings` entry except `time` and
`device_id`, then the single `out` float output. -/
def declare_vars : List (String × String × String) :=
  ((Property_headings.filter
      (fun e => e.1 != "time" && e.1 != "device_id")).map
    (fun e => (e.1, e.2, "input"))) ++ [("out", "float", "output")]

/-- `DenseSTLMonitor.define_spec` (lines 194-231): declares the variables,
computes the dynamic formula (`stl_formula`, line 215) — whose value is
only logged, never installed — and assigns the static speed-property
formula `stl_formula2` (lines 222-227) before parsing. -/
def define_spec (data : List String) : SpecState :=
  let _stl_formula := dyn_build_formula stl_thresholds data
  let stl_formula2 := speed_formula
  { vars := declare_vars, formula := stl_formula2 }

/-! ## Evaluation, classification and persistence -/

/-- One robustness record, modelling the dict appended at lines 285-291. -/
structure Record where
  timestamp : ℚ
  vehicle_id : Int
  stl_spec_id : Int
  robustness : ℚ
  status : String
deriving DecidableEq

/-- The `input_signals` list built at lines 266-268: one `[var, series]`
pair per entry of the loaded data dict, in order — note every loaded
column is included, whatever its name. -/
def input_signals (data : SigData) : SigData :=
  data.map (fun e => (e.1, e.2))

/-- `DenseSTLMonitor.evaluate_single_prop` (lines 261-296).  The rtamt call
`self.spec.evaluate(*input_signals)` is the external oracle; its outcome is
the `result` argument (`none` = the call raised, caught at lines 272-275
returning `[]`; `some rs` = the returned (timestamp, robustness) list).
Each pair is classified at line 282 and turned into a record. -/
def evaluate_single_prop (result : Option (List (ℚ × ℚ)))
    (spec_id : Int) (vehicle_id : Int) : List Record :=
  match result with
  | none => []
  | some rs =>
    rs.map (fun tr =>
      { timestamp := tr.1,
        vehicle_id := vehicle_id,
        stl_spec_id := spec_id,
        robustness := tr.2,
        status := if tr.2 ≥ (0 : ℚ) then "success" else "violation" })

/-- `DenseSTLMonitor.evaluate_all_signals` (lines 233-259), parameterised by
the external oracle: `parses f` says whether `spec.parse()` succeeds after
assigning formula `f` (a parse failure is caught by the loop's `except`,
so nothing is appended for that property), and `oracle f` is the outcome
of `spec.evaluate` under formula `f`.  Note `results_list.append(...)`
appends the whole per-property record *list*, so the accumulated value is
a list of lists. -/
def evaluate_all_signals (props : List (String × Int × String))
    (parses : String → Bool) (oracle : String → Option (List (ℚ × ℚ)))
    (vehicle_id : Int) : List (List Record) :=
  props.foldl
    (fun acc p =>
      if parses p.2.2 then
        acc ++ [evaluate_single_prop (oracle p.2.2) p.2.1 vehicle_id]
      else acc)
    []

/-- `DenseSTLMonitor.write_json` (lines 298-313) as a transformation of the
output file's content: `existing` is the parsed JSON array when the file
exists (`none` when it does not, treated as the empty array), and the
returned list is what `json.dump` writes back.  Generic in the element
type because `json.dump` serialises whatever values the list holds. -/
def write_json {α : Type} (existing : Option (List α)) (results : List α) :
    List α :=
  existing.getD [] ++ results

/-- The persistence steps of `MonitorNode.__init__` (lines 366-374) as a
transformation of the output file's content: the file is first rewritten
with the empty list (`json.dump([], file)`, lines 372-373), so the prior
content `_prev` is discarded, and `write_json` then merges the new results
into that empty array. -/
def monitorNode_persist {α : Type} (_prev : Option (List α))
    (results : List α) : List α :=
  write_json (some ([] : List α)) results

/-! ## JSON shape of the persisted file -/

/-- JSON values, as far as the shapes produced by `json.dump` on the
monitor's results require. -/
inductive Json where
  | num : ℚ → Json
  | int : Int → Json
  | str : String → Json
  | arr : List Json → Json
  | obj : List (String × Json) → Json

/-- Whether a JSON value is an object. -/
def Json.isObj : Json → Bool
  | .obj _ => true
  | _ => false

/-- `json.dump`'s serialisation of one record dict. -/
def recordToJson (r : Record) : Json :=
  .obj [("timestamp", .num r.timestamp), ("vehicle_id", .int r.vehicle_id),
        ("stl_spec_id", .int r.stl_spec_id), ("robustness", .num r.robustness),
        ("status", .str r.status)]

/-- The JSON document a `MonitorNode` run writes to the output file:
`json.dump` applied to `write_json`'s merged list, whose elements are the
per-property record lists accumulated by `evaluate_all_signals` — each
serialised as a JSON array. -/
def written_file (results : List (List Record)) : Json :=
  .arr ((monitorNode_persist none results).map
    (fun recs => .arr (recs.map recordToJson)))

/-! ## Concrete fixtures used by counterexamples and witnesses -/

/-- A concrete success record, as a first run's single persisted record. -/
def recA : Record :=
  { timestamp := 0, vehicle_id := 0, stl_spec_id := 0, robustness := 1,
    status := "success" }

/-- A concrete violation record, as a second run's single persisted record. -/
def recB : Record :=
  { timestamp := 1, vehicle_id := 0, stl_spec_id := 0, robustness := -1,
    status := "violation" }

/-- A CSV row whose `time` and `a` cells parse but whose `b` cell does not. -/
def badRow : Row := [("time", some 0), ("a", some 1), ("b", none)]

/-- A CSV row for a file with a `device_id` identifier column. -/
def idRow : Row := [("time", some 0), ("device_id", some 1), ("speed", some 50)]

/-- The boundary record produced from the oracle pair `(0, 0)`. -/
def boundary_rec : Record :=
  { timestamp := 0, vehicle_id := 0, stl_spec_id := 0, robustness := 0,
    status := "success" }

/-! ## C1 -/

/-- C1 counterexample: the claim says persisting one record and then, in a
second run, one more yields a file with both records, the first preserved.
On the code, a full `MonitorNode` run first rewrites the output file with
the empty array, so after the second run the file holds only the second
run's record — not the two records the claim requires. -/
theorem c1_counterexample :
    monitorNode_persist (some (monitorNode_persist none [recA])) [recB] = [recB] ∧
    [recB] ≠ [recA, recB] := by
  exact ⟨rfl, by decide⟩

/-- C1 (amended): `write_json` itself is merge-append — an absent file is
treated as the empty array and an existing array is extended, never
overwritten — but each `MonitorNode` run truncates the output file to the
empty array before calling `write_json`, so after a second full run the
file contains exactly the second run's records. -/
theorem c1_write_json_merge_append_but_run_truncates
    (prev : Option (List Record)) (xs ys : List Record) :
    write_json (some xs) ys = xs ++ ys ∧
    write_json (none : Option (List Record)) ys = ys ∧
    monitorNode_persist prev ys = ys :=
  ⟨rfl, rfl, rfl⟩

/-! ## C2 -/

/-- C2 counterexample: for the loaded dataset whose only signal column is
`speed`, the formula installed by `define_spec` differs from the string
`dyn_build_formula` returns for that dataset. -/
theorem c2_counterexample :
    (define_spec ["speed"]).formula ≠ dyn_build_formula stl_thresholds ["speed"] := by
  decide

/-- C2 (amended): `define_spec` computes `dyn_build_formula(data)` but only
logs it; the formula it actually installs and parses is the static
`STL_PROPERTY_FORMULAS["speed"]` string, for every dataset. -/
theorem c2_installed_formula_is_static_speed (data : List String) :
    (define_spec data).formula = speed_formula :=
  rfl

/-! ## C3 -/

/-- C3: for every robustness value in an evaluation result, the produced
record's status is `"success"` iff the robustness is ≥ 0 (so the boundary
0 is classified `"success"`), and `"violation"` iff it is < 0. -/
theorem c3_status_iff_nonneg_robustness (res : List (ℚ × ℚ))
    (sid vid : Int) (r : Record)
    (h : r ∈ evaluate_single_prop (some res) sid vid) :
    (r.status = "success" ↔ (0 : ℚ) ≤ r.robustness) ∧
    (r.status = "violation" ↔ r.robustness < 0) := by
  simp only [evaluate_single_prop, List.mem_map] at h
  obtain ⟨tr, -, rfl⟩ := h
  by_cases h0 : (0 : ℚ) ≤ tr.2
  · simp [ge_iff_le, h0, not_lt.mpr h0]
  · simp [ge_iff_le, h0, lt_of_not_le h0]

/-- C3 witness: the boundary pair `(0, 0)` yields a record classified
`"success"`. -/
theorem c3_witness :
    boundary_rec.status = "success" ↔ (0 : ℚ) ≤ boundary_rec.robustness :=
  (c3_status_iff_nonneg_robustness [((0 : ℚ), (0 : ℚ))] 0 0 boundary_rec
    (by decide)).1

/-! ## C6 -/

/-- C6: the claim says that when no signal is shared between the registry
and the data the synthesizer signals an error.  Evaluating the code at
such an input: for a dataset whose only column is `foo` (shared with no
registry signal), `dyn_build_formula` returns normally with the malformed
empty-clause formula — no error is signalled. -/
theorem c6_returns_malformed_formula_instead_of_error :
    dyn_build_formula stl_thresholds ["foo"] =
      "out = always(() implies eventually[0:5]())" := by
  decide

/-! ## C7 -/

/-- C7: the claim says a row with any unparsable cell is skipped whole, no
sample from it surviving.  Evaluating the code at the failing input —
header `time, a, b` and the single row whose `a` cell parses but whose `b`
cell does not — the loader keeps the sample `(0, 1)` already appended to
column `a` before the failure on `b`, so the "skipped" row leaks a sample
into `a`'s sequence. -/
theorem c7_partial_row_samples_retained :
    load_data_from_csv (some (["time", "a", "b"], [badRow])) =
      [("a", [((0 : ℚ), (1 : ℚ))]), ("b", [])] := by
  decide

/-! ## C8 -/

/-- C8: a missing input file, a file with no header row, or a header
without a `time` column each make `load_data_from_csv` return the empty
mapping; the function is total, so no exception escapes. -/
theorem c8_loader_empty_on_bad_input :
    load_data_from_csv none = [] ∧
    (∀ rows : List Row, load_data_from_csv (some ([], rows)) = []) ∧
    (∀ (headers : List String) (rows : List Row),
      "time" ∉ headers → load_data_from_csv (some (headers, rows)) = []) := by
  refine ⟨rfl, fun rows => rfl, fun headers rows h => ?_⟩
  cases headers with
  | nil => rfl
  | cons a as => simp [load_data_from_csv, h]

/-- C8 witness: a present file whose header lacks `time` loads to the empty
mapping. -/
theorem c8_witness :
    load_data_from_csv (some (["speed"], ([] : List Row))) = [] :=
  c8_loader_empty_on_bad_input.2.2 ["speed"] [] (by decide)

/-! ## C5 -/

/-- The record every property yields under the stub oracle that returns the
single pair `(0, 1)`. -/
def sample_rec (i : Int) : Record :=
  { timestamp := 0, vehicle_id := 0, stl_spec_id := i, robustness := 1,
    status := "success" }

/-- C5: the claim says the persisted file is a flat JSON array of record
objects.  Evaluating the code at a failing input — all four catalogue
properties parse and the oracle returns the single pair `(0, 1)` for each —
the written document is an array whose four elements are themselves JSON
arrays (one per property, because `evaluate_all_signals` appends each
per-property record list whole), not record objects. -/
theorem c5_persisted_array_is_nested :
    written_file
        (evaluate_all_signals STL_PROPERTY_FORMULAS (fun _ => true)
          (fun _ => some [((0 : ℚ), (1 : ℚ))]) 0) =
      Json.arr
        [Json.arr [recordToJson (sample_rec 0)],
         Json.arr [recordToJson (sample_rec 1)],
         Json.arr [recordToJson (sample_rec 2)],
         Json.arr [recordToJson (sample_rec 3)]] ∧
    Json.isObj (Json.arr [recordToJson (sample_rec 0)]) = false :=
  ⟨rfl, rfl⟩

/-! ## C9 -/

/-- The loop of `evaluate_all_signals`, for any accumulator: failed parses
contribute nothing, every parsed property contributes exactly its own
record list. -/
theorem eval_all_foldl_characterisation (parses : String → Bool)
    (oracle : String → Option (List (ℚ × ℚ))) (vid : Int)
    (props : List (String × Int × String)) (acc : List (List Record)) :
    props.foldl
      (fun a p =>
        if parses p.2.2 then
          a ++ [evaluate_single_prop (oracle p.2.2) p.2.1 vid]
        else a) acc =
    acc ++ (props.filter (fun p => parses p.2.2)).map
      (fun p => evaluate_single_prop (oracle p.2.2) p.2.1 vid) := by
  induction props generalizing acc with
  | nil => simp
  | cons p ps ih =>
    rw [List.foldl_cons]
    cases h : parses p.2.2 with
    | true => rw [if_pos rfl]; rw [ih]; simp [List.filter_cons, h]
    | false => rw [if_neg (by simp [h])]; rw [ih]; simp [List.filter_cons, h]

/-- C9: per-property failure isolation in the evaluate-all loop — the
accumulated result is exactly the per-property record lists of the
properties whose formula parsed (a parse failure is caught and that
property contributes nothing, and the loop continues), and a property
whose oracle evaluation raises contributes the empty record list. -/
theorem c9_per_property_isolation (props : List (String × Int × String))
    (parses : String → Bool) (oracle : String → Option (List (ℚ × ℚ)))
    (vid : Int) :
    evaluate_all_signals props parses oracle vid =
      (props.filter (fun p => parses p.2.2)).map
        (fun p => evaluate_single_prop (oracle p.2.2) p.2.1 vid) ∧
    (∀ sid : Int, evaluate_single_prop none sid vid = []) := by
  constructor
  · unfold evaluate_all_signals
    rw [eval_all_foldl_characterisation]
    simp
  · intro sid
    rfl

/-! ## C4 -/

/-- One loop iteration of `dyn_build_formula` appends, to each clause,
exactly the per-signal predicates of the present bounds — when the signal
occurs in the data — and nothing otherwise. -/
theorem buildStep_characterisation (data : List String)
    (acc : List String × List String) (e : String × Rules) :
    buildStep data acc e =
      if e.1 ∈ data then
        (acc.1 ++ spec_viol_preds e, acc.2 ++ spec_rec_preds e)
      else acc := by
  unfold buildStep spec_viol_preds spec_rec_preds
  by_cases h : e.1 ∈ data
  · rw [if_pos h, if_pos h]
    cases e.2.min <;> cases e.2.max <;> simp
  · rw [if_neg h, if_neg h]

/-- The clause accumulation of `dyn_build_formula` equals, for any starting
accumulator, the spec-side predicate lists of the signals present in both
the registry and the data. -/
theorem foldl_buildStep_characterisation (data : List String)
    (l : List (String × Rules)) (a b : List String) :
    l.foldl (buildStep data) (a, b) =
      (a ++ ((l.filter (fun e => decide (e.1 ∈ data))).map spec_viol_preds).flatten,
       b ++ ((l.filter (fun e => decide (e.1 ∈ data))).map spec_rec_preds).flatten) := by
  induction l generalizing a b with
  | nil => simp
  | cons e es ih =>
    rw [List.foldl_cons, buildStep_characterisation]
    by_cases h : e.1 ∈ data
    · rw [if_pos h, ih]
      simp [List.filter_cons, h]
    · rw [if_neg h, ih]
      simp [List.filter_cons, h]

/-- C4: for every threshold registry and dataset, the synthesized formula
is exactly `out = always((V) implies eventually[0:W](R))` where `V` is the
`" or "`-join and `R` the `" and "`-join of the spec-side predicate lists:
per signal present in both the registry and the data, one `signal < min` /
`signal >= min` predicate pair exactly when a `min` bound exists and one
`signal > max` / `signal <= max` pair exactly when a `max` bound exists
(and no predicate for an absent bound or absent signal), and `W` is the
registry's `window_time`, defaulting to 5 when absent. -/
theorem c4_canonical_formula_shape (reg : Registry) (data : List String) :
    dyn_build_formula reg data =
      "out = always((" ++
        String.intercalate " or " (spec_violation_list reg data) ++
        ") implies eventually[0:" ++ toString (reg.window_time.getD 5) ++
        "](" ++ String.intercalate " and " (spec_recovery_list reg data) ++
        "))" := by
  unfold dyn_build_formula spec_violation_list spec_recovery_list
  rw [foldl_buildStep_characterisation]
  simp

/-! ## C10 -/

/-- Appending a sample to a named column never changes the column set. -/
theorem appendAt_keys (d : SigData) (c : String) (s : ℚ × ℚ) :
    (appendAt d c s).map Prod.fst = d.map Prod.fst := by
  unfold appendAt
  rw [List.map_map]
  apply List.map_congr_left
  intro e _
  by_cases h : e.1 = c <;> simp [h]

/-- The per-header append loop never changes the column set. -/
theorem appendCells_keys (t : ℚ) (row : Row) (hdrs : List String)
    (d : SigData) :
    (appendCells t row hdrs d).map Prod.fst = d.map Prod.fst := by
  induction hdrs generalizing d with
  | nil => rfl
  | cons c cs ih =>
    cases h : getCell row c with
    | none => simp [appendCells, h]
    | some v => simp [appendCells, h, ih, appendAt_keys]

/-- Processing one row never changes the column set. -/
theorem processRow_keys (hdrs : List String) (d : SigData) (row : Row) :
    (processRow hdrs d row).map Prod.fst = d.map Prod.fst := by
  cases h : getCell row "time" with
  | none => simp [processRow, h]
  | some t => simp [processRow, h, appendCells_keys]

/-- Folding row processing over a row list never changes the column set. -/
theorem foldl_processRow_keys (hdrs : List String) (rows : List Row)
    (d : SigData) :
    ((rows.foldl (processRow hdrs) d).map Prod.fst) = d.map Prod.fst := by
  induction rows generalizing d with
  | nil => rfl
  | cons r rs ih => rw [List.foldl_cons, ih, processRow_keys]

/-- The columns of a successfully loaded table are exactly the headers
other than `time` — the loader drops only `time`, no identifier column. -/
theorem load_data_from_csv_keys (headers : List String) (rows : List Row)
    (h : "time" ∈ headers) :
    (load_data_from_csv (some (headers, rows))).map Prod.fst =
      headers.filter (fun c => c != "time") := by
  have hne : headers.isEmpty = false := by
    cases headers with
    | nil => cases h
    | cons a as => rfl
  simp only [load_data_from_csv, hne, Bool.false_eq_true, if_false, if_pos h]
  rw [foldl_processRow_keys, List.map_map]
  simp [Function.comp_def]

/-- C10 counterexample: the claim says no identifier-column sample series
is treated as a monitored signal or passed to the oracle as an input
signal series.  For the concrete CSV with header `time, device_id, speed`
and one row, the loaded table keeps a `device_id` series and
`evaluate_single_prop`'s `input_signals` list hands exactly that series to
the oracle. -/
theorem c10_counterexample :
    ("device_id", [((0 : ℚ), (1 : ℚ))]) ∈
      input_signals
        (load_data_from_csv (some (["time", "device_id", "speed"], [idRow]))) := by
  decide

/-- C10 (amended): variable declaration does exclude `time` and
`device_id` — `define_spec` declares one input per remaining schema entry
plus the `out` float output — but the loader excludes only `time`, so any
other column of the CSV (including the `device_id` identifier column)
becomes a loaded signal series, which `evaluate_single_prop` passes to the
oracle as an input signal. -/
theorem c10_declared_vars_vs_loaded_columns :
    declare_vars =
      [("speed", "float", "input"), ("acceleration", "float", "input"),
       ("x", "float", "input"), ("y", "float", "input"),
       ("angle", "float", "input"), ("out", "float", "output")] ∧
    (∀ (headers : List String) (rows : List Row) (c : String),
      "time" ∈ headers → c ∈ headers → c ≠ "time" →
      (c ∈ (load_data_from_csv (some (headers, rows))).map Prod.fst ∧
       c ∈ (input_signals (load_data_from_csv (some (headers, rows)))).map Prod.fst)) := by
  refine ⟨rfl, fun headers rows c ht hc hne => ?_⟩
  have hk : c ∈ (load_data_from_csv (some (headers, rows))).map Prod.fst := by
    rw [load_data_from_csv_keys headers rows ht]
    simp [List.mem_filter, hc, hne]
  refine ⟨hk, ?_⟩
  simpa [input_signals, List.map_map] using hk

/-- C10 witness: for the header `time, device_id`, the `device_id` column
is loaded as a signal and appears among the oracle's input signals. -/
theorem c10_witness :
    "device_id" ∈
      (load_data_from_csv (some (["time", "device_id"], ([] : List Row)))).map
        Prod.fst ∧
    "device_id" ∈
      (input_signals
        (load_data_from_csv (some (["time", "device_id"], ([] : List Row))))).map
        Prod.fst :=
  c10_declared_vars_vs_loaded_columns.2 ["time", "device_id"] [] "device_id"
    (by decide) (by decide) (by decide)

end TrustManSTL
